import Mathlib

/-!
Verification of the `sshterm` server against its specification.

The definitions below are a shallow embedding of the TypeScript sources:
* `LoginThrottleService` (`src/server/application/services/LoginThrottleService.ts`,
  rolling-window variant, also present as `src/unnamed/part_003`),
* `SSHConnection` (`src/server/domain/models/index.ts`),
* `AuthenticationService` (`src/server/application/services/AuthenticationService.ts`),
* `AuditLogger` (`src/server/infrastructure/logging/AuditLogger.ts`),
* the `login` handler of `SocketHandler`
  (`src/server/presentation/socket/SocketHandler.ts`).

Epoch-millisecond times are modelled as `Int` (JavaScript numbers used as
integral timestamps); JavaScript string falsiness (`""` is falsy) and number
falsiness (`0` is falsy) are modelled explicitly where the source relies on
them.  Stateful classes become explicit state-passing functions; the
`Map<string, T>` record stores become total functions `String → Option T`.
-/

/-! ### Login throttle: data model

`interface ThrottleRecord { timestamps: number[]; blockedUntil?: number }` -/

structure ThrottleRecord where
  timestamps : List Int
  blockedUntil : Option Int
deriving Repr, DecidableEq

structure ThrottleConfig where
  maxFailures : Nat
  lockoutMs : Int
  windowMs : Int
deriving Repr, DecidableEq

/-- The `records` map of `LoginThrottleService`, as a total function. -/
def ThrottleState : Type := String → Option ThrottleRecord

def emptyThrottle : ThrottleState := fun _ => none

/-- Source: `this.records.set(k, r)`. -/
def setRec (st : ThrottleState) (k : String) (r : ThrottleRecord) : ThrottleState :=
  fun k' => if k' = k then some r else st k'

/-- Source: `this.records.delete(k)`. -/
def delRec (st : ThrottleState) (k : String) : ThrottleState :=
  fun k' => if k' = k then none else st k'

/-! Kernel-computable string primitives with JavaScript semantics, used in
place of the built-in `String` operations (whose implementations do not
reduce definitionally). -/

/-- Source: `s.split(sep)` for a one-character separator, on character lists. -/
def charsSplit (sep : Char) : List Char → List (List Char)
  | [] => [[]]
  | c :: cs =>
    match charsSplit sep cs with
    | [] => if c = sep then [[], []] else [[c]]
    | g :: gs => if c = sep then [] :: g :: gs else (c :: g) :: gs

/-- Source: `s.split(sep)` for a one-character separator. -/
def jsSplit (s : String) (sep : Char) : List String :=
  (charsSplit sep s.data).map String.mk

/-- Source: `s.trim()`. -/
def jsTrim (s : String) : String :=
  ⟨((s.data.dropWhile Char.isWhitespace).reverse.dropWhile Char.isWhitespace).reverse⟩

/-- Source: `s.startsWith(pre)`. -/
def jsStartsWith (s pre : String) : Bool :=
  pre.data.isPrefixOf s.data

/-- Source: `s.substring(n)` (drop the first `n` characters). -/
def jsDrop (s : String) (n : Nat) : String :=
  ⟨s.data.drop n⟩

/-- Source: `s.toLowerCase()` (ASCII, which is all the key derivation relies on). -/
def jsToLower (s : String) : String :=
  ⟨s.data.map Char.toLower⟩

/-- Source: `parseInt(s, 10)` on an all-digit string. -/
def digitsVal (s : String) : Nat :=
  s.data.foldl (fun n c => n * 10 + (c.toNat - 48)) 0

/-- Source: `` private key(ip, host) { return `${ip}::${host.toLowerCase()}`; } `` -/
def throttleKey (ip host : String) : String :=
  ip ++ "::" ++ jsToLower host

/-- JavaScript truthiness of `rec.blockedUntil && rec.blockedUntil > now`:
an absent field and the number `0` are both falsy. -/
def activeBlock : Option Int → Int → Bool
  | none, _ => false
  | some b, now => if b ≠ 0 ∧ now < b then true else false

structure BlockResult where
  blocked : Bool
  retryAfterMs : Int
deriving Repr, DecidableEq

/-- Source: `LoginThrottleService.isBlocked(ip, host)`, returning the result together
with the updated `records` state (the source mutates `rec` in place and
re-`set`s it). -/
def isBlocked (cfg : ThrottleConfig) (st : ThrottleState) (now : Int)
    (ip host : String) : BlockResult × ThrottleState :=
  let k := throttleKey ip host
  match st k with
  | none => (⟨false, 0⟩, st)
  | some r =>
    if activeBlock r.blockedUntil now then
      (⟨true, (r.blockedUntil.getD 0) - now⟩, st)
    else
      let ts := r.timestamps.filter (fun t => now - t ≤ cfg.windowMs)
      if cfg.maxFailures ≤ ts.length then
        (⟨true, cfg.lockoutMs⟩, setRec st k ⟨[], some (now + cfg.lockoutMs)⟩)
      else
        (⟨false, 0⟩, setRec st k ⟨ts, r.blockedUntil⟩)

/-- Source: `LoginThrottleService.registerFailure(ip, host)`. -/
def registerFailure (cfg : ThrottleConfig) (st : ThrottleState) (now : Int)
    (ip host : String) : ThrottleState :=
  let k := throttleKey ip host
  let r := (st k).getD ⟨[], none⟩
  if activeBlock r.blockedUntil now then
    setRec st k ⟨r.timestamps, some (max (r.blockedUntil.getD 0) (now + cfg.lockoutMs))⟩
  else
    let ts := (r.timestamps ++ [now]).filter (fun t => now - t ≤ cfg.windowMs)
    if cfg.maxFailures ≤ ts.length then
      setRec st k ⟨[], some (now + cfg.lockoutMs)⟩
    else
      setRec st k ⟨ts, r.blockedUntil⟩

/-- Source: `LoginThrottleService.registerSuccess(ip, host)`. -/
def registerSuccess (st : ThrottleState) (ip host : String) : ThrottleState :=
  delRec st (throttleKey ip host)

/-- A sequence of `registerFailure` calls at the given times (left to right). -/
def registerFailures (cfg : ThrottleConfig) (st : ThrottleState)
    (ip host : String) : List Int → ThrottleState
  | [] => st
  | t :: ts => registerFailures cfg (registerFailure cfg st t ip host) ip host ts

/-- Source: `Math.ceil(a / b)` on integers, for positive `b` (`ceil x = -floor (-x)`;
`Int.ediv` is floor division for a positive divisor). -/
def ceilDivInt (a b : Int) : Int := -((-a) / b)

/-- Source: `LoginThrottleService.formatRetryAfter(ms)`. -/
def formatRetryAfter (ms : Int) : String :=
  let seconds := ceilDivInt ms 1000
  let minutes := ceilDivInt seconds 60
  if 1 ≤ minutes then
    toString minutes ++ " minute" ++ (if minutes = 1 then "" else "s")
  else
    toString seconds ++ " second" ++ (if seconds = 1 then "" else "s")


/-! ### Client IP derivation

`LoginThrottleService.getClientIp` / `normalizeIp`: the socket handshake is
reduced to the fields the function reads (the `x-forwarded-for` header, `""`
when absent, and the transport-level address). -/

structure Handshake where
  xForwardedFor : String
  address : String
deriving Repr, DecidableEq

/-- Source: `normalizeIp`: strip the IPv6-mapped IPv4 marker `::ffff:`. -/
def normalizeIp (ip : String) : String :=
  if jsStartsWith ip "::ffff:" then jsDrop ip 7 else ip

/-- Source: `LoginThrottleService.getClientIp(socket)`: first entry of
`x-forwarded-for` when the header is non-empty, else the handshake address. -/
def getClientIp (h : Handshake) : String :=
  if h.xForwardedFor ≠ "" then
    normalizeIp (jsTrim ((jsSplit h.xForwardedFor ',').headD ""))
  else
    normalizeIp h.address


/-- One step of the IPv4 shape test `^(\d{1,3}\.){3}\d{1,3}$`: a run of one to
three decimal digits. -/
def octetShape (p : String) : Bool :=
  decide (1 ≤ p.length) && decide (p.length ≤ 3) && p.data.all Char.isDigit

/-- Hexadecimal digit test (`[0-9a-fA-F]`). -/
def isHexDigitChar (c : Char) : Bool :=
  c.isDigit || ('a' ≤ c && c ≤ 'f') || ('A' ≤ c && c ≤ 'F')

/-- The IPv6 shape test `^([0-9a-fA-F]{0,4}:){2,7}[0-9a-fA-F]{0,4}$`. -/
def ipv6Shape (s : String) : Bool :=
  let gs := jsSplit s ':'
  decide (3 ≤ gs.length) && decide (gs.length ≤ 8)
    && gs.all (fun g => decide (g.length ≤ 4) && g.data.all isHexDigitChar)

/-- Source: `SocketHandler.isValidPublicIP(ip)`: syntactic IPv4/IPv6 check plus
rejection of private / loopback / link-local ranges. -/
def isValidPublicIP (ip : String) : Bool :=
  let parts := jsSplit ip '.'
  if parts.length = 4 && parts.all octetShape then
    if parts.all (fun p => digitsVal p ≤ 255) then
      if jsStartsWith ip "10." || jsStartsWith ip "127." || jsStartsWith ip "192.168."
          || jsStartsWith ip "169.254." then
        false
      else if jsStartsWith ip "172."
          && (decide (16 ≤ digitsVal (parts.getD 1 ""))
              && decide (digitsVal (parts.getD 1 "") ≤ 31)) then
        false
      else
        true
    else
      false
  else if ipv6Shape ip then
    !(ip = "::1" || jsStartsWith ip "fe80:" || jsStartsWith ip "fc" || jsStartsWith ip "fd")
  else
    false


/-! ### SSH connection (`SSHConnection` in `src/server/domain/models/index.ts`)

The wrapper's observable state: whether stream/connection handles exist and
have been ended, and the ordered list of events it has emitted. -/

structure SSHConnection where
  hasStream : Bool
  hasConn : Bool
  streamEnded : Bool
  connEnded : Bool
  emitted : List String
deriving Repr, DecidableEq

/-- Source: `close()`: `this.stream?.end(); this.connection?.end(); this.emit('closed')`.
Optional chaining makes both `end` calls safe; the `closed` event is emitted
unconditionally on every call. -/
def SSHConnection.close (s : SSHConnection) : SSHConnection :=
  { s with
    streamEnded := s.streamEnded || s.hasStream
    connEnded := s.connEnded || s.hasConn
    emitted := s.emitted ++ ["closed"] }

/-- A freshly constructed connection with live handles and no emitted events. -/
def freshSSHConnection : SSHConnection :=
  ⟨true, true, false, false, []⟩


/-! ### Authentication (`AuthenticationService.authenticate`)

`Credentials` (a value object) throws at construction when either field is
empty or whitespace-only; `authenticate` re-checks falsiness and length, then
creates a session keyed by a fresh UUID.  The UUID is passed in explicitly
(the source draws it from `randomUUID()`). -/

structure Credentials where
  username : String
  password : String
deriving Repr, DecidableEq

/-- The `Credentials` constructor succeeds iff neither field trims to empty. -/
def Credentials.ctorOk (c : Credentials) : Bool :=
  !(jsTrim c.username = "" || jsTrim c.password = "")

structure AuthResult where
  success : Bool
  message : Option String
  sessionId : Option String
deriving Repr, DecidableEq

/-- Source: `AuthenticationService.authenticate(credentials)` with the fresh
`randomUUID()` value supplied as `freshUuid`. -/
def authenticate (c : Credentials) (freshUuid : String) : AuthResult :=
  if c.username = "" ∨ c.password = "" then
    ⟨false, some "Username and password are required", none⟩
  else if c.username.length < 1 ∨ c.password.length < 1 then
    ⟨false, some "Invalid credentials", none⟩
  else
    ⟨true, none, some freshUuid⟩


/-! ### Audit logging (`AuditLogger.logAuthFailure`)

The persisted record; the HMAC-SHA256 primitive is abstracted as a function
argument `hmac : secret → message → digest`. -/

structure AuditRecord where
  ts : String
  ip : String
  host : String
  username : String
  passwordRedacted : String
  passwordHash : Option String
  reason : String
  userAgent : String
  socketId : String
deriving Repr, DecidableEq

/-- Source: `AuditLogger.redactPassword(pw)`: `undefined` and `""` are both falsy. -/
def redactPassword : Option String → String
  | none => "<redacted:length=0>"
  | some pw =>
    if pw = "" then "<redacted:length=0>"
    else "<redacted:length=" ++ toString pw.length ++ ">"

/-- Source: `AuditLogger.hashPassword(pw, secret)`: `undefined` unless both the
password and the configured secret are truthy. -/
def hashPassword (pw secret : Option String) (hmac : String → String → String) :
    Option String :=
  match pw, secret with
  | some p, some s => if p = "" ∨ s = "" then none else some (hmac s p)
  | _, _ => none

/-- The input of `logAuthFailure` (everything except the derived fields). -/
structure AuthFailureEntry where
  ip : String
  host : String
  username : String
  password : Option String
  reason : String
  userAgent : String
  socketId : String
deriving Repr, DecidableEq

/-- The record `AuditLogger.logAuthFailure` builds and appends (the ISO
timestamp is supplied as `ts`). -/
def logAuthFailureRecord (ts : String) (e : AuthFailureEntry)
    (secret : Option String) (hmac : String → String → String) : AuditRecord :=
  { ts := ts
    ip := e.ip
    host := e.host
    username := e.username
    passwordRedacted := redactPassword e.password
    passwordHash := hashPassword e.password secret hmac
    reason := e.reason
    userAgent := e.userAgent
    socketId := e.socketId }

/-- The length a JavaScript redaction reports: `0` for an absent password. -/
def pwLen : Option String → Nat
  | none => 0
  | some p => p.length

/-! ### The `login` handler (`SocketHandler.setupLoginHandler`)

The handler is embedded as a total function over its message, its
environment, and the outcomes of its two injected collaborators (the
authentication service and the SSH connection service, which are constructor
parameters of `SocketHandler`).  Its observable behaviour is collected in
`HandlerOutput`: the `loginResult` messages emitted, the throttle state after
the call, whether `authenticate` / `createConnection` were invoked, how many
`registerFailure` calls were made, whether `registerSuccess` was called, and
the audit records written.  The two `throw` sites reachable from the handler
body (the `Credentials` and `SSHConfig` constructors) land in the outer
`catch`, which emits `loginResult {success:false, message:'Authentication
error'}`. -/

/-- JavaScript `a || b` on strings (`""` is falsy). -/
def jsOr (a b : String) : String := if a = "" then b else a

/-- An optional environment/payload string as JavaScript sees it
(`undefined` behaves like a falsy value, modelled by `""`). -/
def optStr : Option String → String
  | none => ""
  | some s => s

/-- Source: `(host && host.trim()) || process.env.SSH_HOST || ''`. -/
def effectiveHostOf (host : Option String) (envSshHost : Option String) : String :=
  jsOr (match host with
        | none => ""
        | some h => if h = "" then "" else jsTrim h)
       (optStr envSshHost)

/-- Source: `(host && host.trim().length > 0) ? host : process.env.SSH_HOST` (note:
the untrimmed client value is kept when it is chosen). -/
def sshHostOf (host : Option String) (envSshHost : Option String) : String :=
  match host with
  | none => optStr envSshHost
  | some h => if h = "" then optStr envSshHost
              else if jsTrim h = "" then optStr envSshHost else h

/-- The `SSHConfig` constructor throws iff the host trims to empty or the
port is out of range. -/
def sshConfigThrows (host : String) (port : Int) : Bool :=
  jsTrim host = "" || port ≤ 0 || 65535 < port

structure LoginMsg where
  username : String
  password : String
  host : Option String
  port : Option Int
deriving Repr, DecidableEq

structure LoginEnv where
  sshHostEnv : Option String
  sshPortEnv : Int
deriving Repr, DecidableEq

structure LoginResultMsg where
  success : Bool
  message : Option String
deriving Repr, DecidableEq

/-- Outcome of `sshConnectionService.createConnection` (injected service). -/
inductive SshOutcome where
  | ok
  | err (message : String)
deriving Repr, DecidableEq

structure HandlerOutput where
  emits : List LoginResultMsg
  throttle : ThrottleState
  authAttempted : Bool
  sshAttempted : Bool
  failuresRegistered : Nat
  successRegistered : Bool
  audits : List AuditRecord

/-- The body of `socket.on('login', ...)`.  `auth` is the result returned by
the injected authentication service, `ssh` the outcome of
`createConnection`, `nowIso` the ISO timestamp stamped on audit records,
`secret`/`hmac` the audit logger's HMAC configuration. -/
def loginHandler (cfg : ThrottleConfig) (st : ThrottleState) (env : LoginEnv)
    (hs : Handshake) (userAgent socketId : String)
    (auth : AuthResult) (ssh : SshOutcome) (now : Int) (nowIso : String)
    (secret : Option String) (hmac : String → String → String)
    (msg : LoginMsg) : HandlerOutput :=
  let effectiveHost := effectiveHostOf msg.host env.sshHostEnv
  let clientIp := getClientIp hs
  -- `if (effectiveHost) { ... isBlocked ... }`
  let bc := if effectiveHost ≠ "" then isBlocked cfg st now clientIp effectiveHost
            else (⟨false, 0⟩, st)
  if effectiveHost ≠ "" ∧ bc.1.blocked = true then
    { emits := [⟨false, some ("Too many failed attempts. Try again in "
                  ++ formatRetryAfter bc.1.retryAfterMs ++ ".")⟩]
      throttle := bc.2
      authAttempted := false, sshAttempted := false
      failuresRegistered := 0, successRegistered := false, audits := [] }
  else if msg.username = "" ∨ msg.password = "" then
    { emits := [⟨false, some "Username and password are required"⟩]
      throttle := bc.2
      authAttempted := false, sshAttempted := false
      failuresRegistered := 0, successRegistered := false, audits := [] }
  else if jsTrim msg.username = "" ∨ jsTrim msg.password = "" then
    -- `new Credentials(...)` throws; caught by the outer catch
    { emits := [⟨false, some "Authentication error"⟩]
      throttle := bc.2
      authAttempted := false, sshAttempted := false
      failuresRegistered := 0, successRegistered := false, audits := [] }
  else if auth.success = false then
    -- `if (!authResult.success)`
    let effectiveHost2 := effectiveHostOf msg.host env.sshHostEnv
    if effectiveHost2 ≠ "" then
      { emits := [⟨false, some (jsOr (optStr auth.message) "Authentication failed")⟩]
        throttle := registerFailure cfg bc.2 now (getClientIp hs) effectiveHost2
        authAttempted := true, sshAttempted := false
        failuresRegistered := 1, successRegistered := false
        audits := [logAuthFailureRecord nowIso
          ⟨getClientIp hs, effectiveHost2, msg.username, some msg.password,
           "auth_failed", userAgent, socketId⟩ secret hmac] }
    else
      { emits := [⟨false, some (jsOr (optStr auth.message) "Authentication failed")⟩]
        throttle := bc.2
        authAttempted := true, sshAttempted := false
        failuresRegistered := 0, successRegistered := false, audits := [] }
  else
    let sshHost := sshHostOf msg.host env.sshHostEnv
    if sshHost = "" then
      { emits := [⟨false, some "SSH host not configured"⟩]
        throttle := bc.2
        authAttempted := true, sshAttempted := false
        failuresRegistered := 0, successRegistered := false, audits := [] }
    else
      let sshPort := msg.port.getD env.sshPortEnv
      if sshConfigThrows sshHost sshPort then
        -- `new SSHConfig(...)` throws; caught by the outer catch
        { emits := [⟨false, some "Authentication error"⟩]
          throttle := bc.2
          authAttempted := true, sshAttempted := false
          failuresRegistered := 0, successRegistered := false, audits := [] }
      else
        match ssh with
        | .ok =>
          { emits := [⟨true, none⟩]
            throttle := registerSuccess bc.2 (getClientIp hs) sshHost
            authAttempted := true, sshAttempted := true
            failuresRegistered := 0, successRegistered := true, audits := [] }
        | .err m =>
          { emits := [⟨false, some m⟩]
            throttle := registerFailure cfg bc.2 now (getClientIp hs) sshHost
            authAttempted := true, sshAttempted := true
            failuresRegistered := 1, successRegistered := false
            audits := [logAuthFailureRecord nowIso
              ⟨getClientIp hs, sshHost, msg.username, some msg.password,
               "ssh_connect_failed", userAgent, socketId⟩ secret hmac] }

/-! ## Theorems -/

/-! ### C8: `formatRetryAfter` -/

/-- Claim C8 counterexample: `formatRetryAfter(30000)` renders `"1 minute"`,
not a seconds string, although 30000 ms is below 60 seconds. -/
theorem formatRetryAfter_30000_is_one_minute :
    formatRetryAfter 30000 = "1 minute" ∧ formatRetryAfter 30000 ≠ "30 seconds" := by
  decide

/-- Claim C8 (amended): `formatRetryAfter` renders the duration in minutes
(the ceiling of the ceiling-seconds over 60) for every positive `ms`; the
seconds branch is reachable only for `ms ≤ 0`. -/
theorem formatRetryAfter_minutes_of_pos (ms : Int) (h : 1 ≤ ms) :
    ∃ m : Int, 1 ≤ m ∧
      formatRetryAfter ms = toString m ++ " minute" ++ (if m = 1 then "" else "s") := by
  have h1 : 1 ≤ ceilDivInt ms 1000 := by unfold ceilDivInt; omega
  have h2 : 1 ≤ ceilDivInt (ceilDivInt ms 1000) 60 := by
    unfold ceilDivInt at *; omega
  refine ⟨ceilDivInt (ceilDivInt ms 1000) 60, h2, ?_⟩
  unfold formatRetryAfter
  rw [if_pos h2]

/-- Witness for C8's amended theorem at `ms = 30000`. -/
theorem formatRetryAfter_minutes_of_pos_witness :
    (1 : Int) ≤ 30000 ∧
      ∃ m : Int, 1 ≤ m ∧
        formatRetryAfter 30000 = toString m ++ " minute" ++ (if m = 1 then "" else "s") :=
  ⟨by decide, formatRetryAfter_minutes_of_pos 30000 (by decide)⟩

/-! ### C1: `SSHConnection.close` -/

/-- Claim C1 counterexample: two successive `close()` calls on a fresh
connection emit the `closed` notification twice, not exactly once. -/
theorem close_close_emits_closed_twice :
    (freshSSHConnection.close.close).emitted.count "closed" = 2 ∧
      ¬ (freshSSHConnection.close.close).emitted.count "closed" = 1 := by
  decide

/-- Claim C1 (amended): `close()` never raises an error and is safe to
repeat, but every call appends exactly one `closed` notification — two
successive calls emit two, not one. -/
theorem close_emits_one_closed_per_call (s : SSHConnection) :
    (s.close).emitted.count "closed" = s.emitted.count "closed" + 1 := by
  simp [SSHConnection.close, List.count_append]

/-! ### C3: client-IP derivation for the throttle key -/

theorem charsSplit_ne_nil (sep : Char) (cs : List Char) : charsSplit sep cs ≠ [] := by
  cases cs with
  | nil => simp [charsSplit]
  | cons c cs =>
    rw [charsSplit]
    cases h : charsSplit sep cs with
    | nil => split <;> split <;> simp
    | cons g gs => split <;> split <;> simp

theorem charsSplit_append_sep (sep : Char) (bs : List Char) :
    ∀ as : List Char, sep ∉ as →
      charsSplit sep (as ++ sep :: bs) = as :: charsSplit sep bs
  | [], _ => by
    simp only [List.nil_append]
    rw [charsSplit]
    cases h : charsSplit sep bs with
    | nil => exact absurd h (charsSplit_ne_nil sep bs)
    | cons g gs => simp
  | a :: as, hmem => by
    have ha : a ≠ sep := by
      intro he; exact hmem (he ▸ List.mem_cons_self a as)
    have htl : sep ∉ as := fun hm => hmem (List.mem_cons_of_mem a hm)
    have ih := charsSplit_append_sep sep bs as htl
    simp only [List.cons_append]
    rw [charsSplit, ih]
    simp [ha]

theorem string_mk_data (s : String) : String.mk s.data = s := rfl

/-- Claim C3 counterexample: with X-Forwarded-For chain
`"10.0.0.5, 8.8.8.8"` — a private address followed by a globally routable
one — the throttle-key derivation selects the private `10.0.0.5` (the
repository's own `isValidPublicIP` classifies the two candidates). -/
theorem getClientIp_selects_private_xff_head :
    getClientIp ⟨"10.0.0.5, 8.8.8.8", "203.0.113.9"⟩ = "10.0.0.5" ∧
      isValidPublicIP "10.0.0.5" = false ∧ isValidPublicIP "8.8.8.8" = true := by
  decide

/-- Claim C3 (amended): the derivation applies no range filtering at all — for
every X-Forwarded-For chain it returns the normalized first entry, whether
private or public, ignoring every later candidate. -/
theorem getClientIp_takes_first_xff_entry (first rest addr : String)
    (hnc : ',' ∉ first.data) :
    getClientIp ⟨first ++ "," ++ rest, addr⟩ = normalizeIp (jsTrim first) := by
  have hdata : (first ++ "," ++ rest).data = first.data ++ ',' :: rest.data := by
    simp [String.data_append]
  have hne : (first ++ "," ++ rest) ≠ "" := by
    intro he
    have : (first ++ "," ++ rest).data = [] := by rw [he]
    rw [hdata] at this
    simp at this
  unfold getClientIp
  rw [if_pos hne]
  unfold jsSplit
  rw [show (Handshake.mk (first ++ "," ++ rest) addr).xForwardedFor
        = first ++ "," ++ rest from rfl, hdata,
      charsSplit_append_sep ',' rest.data first.data hnc]
  simp [string_mk_data]

/-- Witness for C3's amended theorem: the chain `"10.0.0.5" ++ "," ++ " 8.8.8.8"`
resolves to the (private) first entry. -/
theorem getClientIp_takes_first_xff_entry_witness :
    ',' ∉ "10.0.0.5".data ∧
      getClientIp ⟨"10.0.0.5" ++ "," ++ " 8.8.8.8", "203.0.113.9"⟩
        = normalizeIp (jsTrim "10.0.0.5") :=
  ⟨by decide, getClientIp_takes_first_xff_entry "10.0.0.5" " 8.8.8.8" "203.0.113.9" (by decide)⟩

/-! ### C9: `AuthenticationService.authenticate` -/

theorem ne_empty_of_jsTrim_ne (s : String) (h : jsTrim s ≠ "") : s ≠ "" := by
  intro he
  subst he
  exact h rfl

theorem not_length_lt_one_of_ne_empty (s : String) (h : s ≠ "") : ¬ s.length < 1 := by
  intro hl
  apply h
  have hd : s.data.length = 0 := Nat.lt_one_iff.mp hl
  have : s.data = [] := List.length_eq_zero.mp hd
  cases s with
  | mk data => simp_all

theorem authenticate_valid_eq (c : Credentials) (uuid : String)
    (hu : jsTrim c.username ≠ "") (hp : jsTrim c.password ≠ "") :
    authenticate c uuid = ⟨true, none, some uuid⟩ := by
  have hu' : c.username ≠ "" := ne_empty_of_jsTrim_ne _ hu
  have hp' : c.password ≠ "" := ne_empty_of_jsTrim_ne _ hp
  unfold authenticate
  rw [if_neg (fun h => h.elim (fun h1 => hu' h1) (fun h2 => hp' h2)),
      if_neg (by
        rintro (h1 | h2)
        · exact not_length_lt_one_of_ne_empty _ hu' h1
        · exact not_length_lt_one_of_ne_empty _ hp' h2)]

/-- Claim C9: for credentials with non-whitespace username and password,
`authenticate` succeeds with a fresh session id, and the outcome is the same
for any other non-whitespace password — the password is never compared
against a stored secret. -/
theorem authenticate_succeeds_for_valid_credentials (c : Credentials) (uuid : String)
    (hu : jsTrim c.username ≠ "") (hp : jsTrim c.password ≠ "") :
    authenticate c uuid = ⟨true, none, some uuid⟩ ∧
      ∀ p' : String, jsTrim p' ≠ "" →
        authenticate ⟨c.username, p'⟩ uuid = authenticate c uuid := by
  constructor
  · exact authenticate_valid_eq c uuid hu hp
  · intro p' hp'
    rw [authenticate_valid_eq ⟨c.username, p'⟩ uuid hu hp',
        authenticate_valid_eq c uuid hu hp]

/-- Witness for C9 at concrete credentials. -/
theorem authenticate_succeeds_for_valid_credentials_witness :
    jsTrim "alice" ≠ "" ∧
      (authenticate ⟨"alice", "hunter2"⟩ "uuid-1" = ⟨true, none, some "uuid-1"⟩ ∧
        ∀ p' : String, jsTrim p' ≠ "" →
          authenticate ⟨"alice", p'⟩ "uuid-1" = authenticate ⟨"alice", "hunter2"⟩ "uuid-1") :=
  ⟨by decide,
   authenticate_succeeds_for_valid_credentials ⟨"alice", "hunter2"⟩ "uuid-1"
     (by decide) (by decide)⟩

/-! ### C7: audit records depend on the password only through length and hash -/

theorem redactPassword_eq_of_pwLen (p : Option String) :
    redactPassword p = "<redacted:length=" ++ toString (pwLen p) ++ ">" := by
  match p with
  | none => decide
  | some s =>
    by_cases h : s = ""
    · subst h; decide
    · simp [redactPassword, pwLen, h]

/-- Claim C7: the persisted auth-failure record depends on the plaintext
password only through its length and its keyed hash — two entries differing
only in passwords of equal length and equal hash yield identical records. -/
theorem logAuthFailureRecord_depends_only_on_length_and_hash
    (ts ip host username reason ua sid : String)
    (secret : Option String) (hmac : String → String → String)
    (p1 p2 : Option String)
    (hlen : pwLen p1 = pwLen p2)
    (hhash : hashPassword p1 secret hmac = hashPassword p2 secret hmac) :
    logAuthFailureRecord ts ⟨ip, host, username, p1, reason, ua, sid⟩ secret hmac
      = logAuthFailureRecord ts ⟨ip, host, username, p2, reason, ua, sid⟩ secret hmac := by
  unfold logAuthFailureRecord
  rw [redactPassword_eq_of_pwLen, redactPassword_eq_of_pwLen, hlen, hhash]

/-- Witness for C7: passwords `"abc"` and `"xyz"` (same length, no hash
secret configured) produce identical audit records. -/
theorem logAuthFailureRecord_depends_only_on_length_and_hash_witness :
    pwLen (some "abc") = pwLen (some "xyz") ∧
      logAuthFailureRecord "t0" ⟨"1.2.3.4", "h", "alice", some "abc", "auth_failed", "ua", "s1"⟩
          none (fun _ _ => "")
        = logAuthFailureRecord "t0" ⟨"1.2.3.4", "h", "alice", some "xyz", "auth_failed", "ua", "s1"⟩
          none (fun _ _ => "") :=
  ⟨by decide,
   logAuthFailureRecord_depends_only_on_length_and_hash "t0" "1.2.3.4" "h" "alice"
     "auth_failed" "ua" "s1" none (fun _ _ => "") (some "abc") (some "xyz")
     (by decide) (by decide)⟩

/-! ### C2: `isBlocked` on a key without an active lockout -/

/-- Claim C2: with a record present and no active lockout, `isBlocked` purges
the timestamps outside the window; if the survivors still reach
`maxFailures` it installs a fresh lockout of `lockoutMs`, clears the
timestamps and reports blocked, otherwise it stores the purged record and
reports not blocked; in both cases every other key is untouched. -/
theorem isBlocked_purge_and_convert (cfg : ThrottleConfig) (st : ThrottleState)
    (now : Int) (ip host : String) (r : ThrottleRecord)
    (hrec : st (throttleKey ip host) = some r)
    (hnb : activeBlock r.blockedUntil now = false) :
    (cfg.maxFailures ≤ (r.timestamps.filter (fun t => now - t ≤ cfg.windowMs)).length →
        (isBlocked cfg st now ip host).1 = ⟨true, cfg.lockoutMs⟩ ∧
        (isBlocked cfg st now ip host).2 (throttleKey ip host)
          = some ⟨[], some (now + cfg.lockoutMs)⟩) ∧
    ((r.timestamps.filter (fun t => now - t ≤ cfg.windowMs)).length < cfg.maxFailures →
        (isBlocked cfg st now ip host).1 = ⟨false, 0⟩ ∧
        (isBlocked cfg st now ip host).2 (throttleKey ip host)
          = some ⟨r.timestamps.filter (fun t => now - t ≤ cfg.windowMs), r.blockedUntil⟩) ∧
    (∀ k', k' ≠ throttleKey ip host →
        (isBlocked cfg st now ip host).2 k' = st k') := by
  simp only [isBlocked]
  rw [hrec]
  simp only [hnb, Bool.false_eq_true, if_false]
  refine ⟨?_, ?_, ?_⟩
  · intro hge
    rw [if_pos hge]
    simp [setRec]
  · intro hlt
    rw [if_neg (Nat.not_le.mpr hlt)]
    simp [setRec]
  · intro k' hk'
    split <;> simp [setRec, hk']

/-- Witness for C2: a record with one stale and one fresh timestamp, below
the threshold after purging. -/
theorem isBlocked_purge_and_convert_witness :
    (setRec emptyThrottle (throttleKey "1.2.3.4" "Host") ⟨[0, -200], none⟩)
        (throttleKey "1.2.3.4" "Host") = some ⟨[0, -200], none⟩ ∧
      (((⟨[0, -200], none⟩ : ThrottleRecord).timestamps.filter
            (fun t => (10 : Int) - t ≤ (50 : Int))).length < 2 →
        (isBlocked ⟨2, 100, 50⟩
            (setRec emptyThrottle (throttleKey "1.2.3.4" "Host") ⟨[0, -200], none⟩)
            10 "1.2.3.4" "Host").1 = ⟨false, 0⟩ ∧
        (isBlocked ⟨2, 100, 50⟩
            (setRec emptyThrottle (throttleKey "1.2.3.4" "Host") ⟨[0, -200], none⟩)
            10 "1.2.3.4" "Host").2 (throttleKey "1.2.3.4" "Host")
          = some ⟨(⟨[0, -200], none⟩ : ThrottleRecord).timestamps.filter
              (fun t => (10 : Int) - t ≤ (50 : Int)), none⟩) :=
  ⟨by decide,
   (isBlocked_purge_and_convert ⟨2, 100, 50⟩
      (setRec emptyThrottle (throttleKey "1.2.3.4" "Host") ⟨[0, -200], none⟩)
      10 "1.2.3.4" "Host" ⟨[0, -200], none⟩ (by decide) (by decide)).2.1⟩

/-! ### C6: `registerSuccess` gives a clean slate -/

/-- Claim C6: after any prior state, `registerSuccess` deletes the key's
record; an immediate `isBlocked` reports not blocked with retry 0, and the
next `registerFailure` starts counting from a single fresh timestamp. -/
theorem registerSuccess_clean_slate (cfg : ThrottleConfig) (st : ThrottleState)
    (now now2 : Int) (ip host : String)
    (hw : 0 ≤ cfg.windowMs) (hmax : 1 < cfg.maxFailures) :
    (registerSuccess st ip host) (throttleKey ip host) = none ∧
      (isBlocked cfg (registerSuccess st ip host) now ip host).1 = ⟨false, 0⟩ ∧
      (registerFailure cfg (registerSuccess st ip host) now2 ip host)
          (throttleKey ip host) = some ⟨[now2], none⟩ := by
  have hk : (registerSuccess st ip host) (throttleKey ip host) = none := by
    simp [registerSuccess, delRec]
  refine ⟨hk, ?_, ?_⟩
  · simp only [isBlocked]
    rw [hk]
  · simp only [registerFailure]
    rw [hk]
    simp only [Option.getD_none, activeBlock, Bool.false_eq_true, if_false]
    have hfil : (([] ++ [now2]).filter (fun t => now2 - t ≤ cfg.windowMs)) = [now2] := by
      simp
      omega
    rw [hfil]
    rw [if_neg (by simpa using Nat.not_le.mpr hmax)]
    simp [setRec]

/-- Witness for C6 after a lockout-carrying prior state. -/
theorem registerSuccess_clean_slate_witness :
    (0 : Int) ≤ 50 ∧
      ((registerSuccess
            (setRec emptyThrottle (throttleKey "1.2.3.4" "h") ⟨[], some 99999⟩)
            "1.2.3.4" "h") (throttleKey "1.2.3.4" "h") = none ∧
        (isBlocked ⟨2, 100, 50⟩
            (registerSuccess
              (setRec emptyThrottle (throttleKey "1.2.3.4" "h") ⟨[], some 99999⟩)
              "1.2.3.4" "h") 10 "1.2.3.4" "h").1 = ⟨false, 0⟩ ∧
        (registerFailure ⟨2, 100, 50⟩
            (registerSuccess
              (setRec emptyThrottle (throttleKey "1.2.3.4" "h") ⟨[], some 99999⟩)
              "1.2.3.4" "h") 11 "1.2.3.4" "h") (throttleKey "1.2.3.4" "h")
          = some ⟨[11], none⟩) :=
  ⟨by decide,
   registerSuccess_clean_slate ⟨2, 100, 50⟩
     (setRec emptyThrottle (throttleKey "1.2.3.4" "h") ⟨[], some 99999⟩)
     10 11 "1.2.3.4" "h" (by decide) (by decide)⟩

/-! ### C4: `maxFailures` failures inside one window trigger a lockout -/

theorem registerFailures_append (cfg : ThrottleConfig) (ip host : String) :
    ∀ (l1 l2 : List Int) (st : ThrottleState),
      registerFailures cfg st ip host (l1 ++ l2)
        = registerFailures cfg (registerFailures cfg st ip host l1) ip host l2
  | [], _, _ => rfl
  | t :: l1, l2, st => by
    simp only [List.cons_append, registerFailures]
    exact registerFailures_append cfg ip host l1 l2 _

/-- Running `registerFailure` at times inside `[a, b]` (with `b - a` within
the window) while staying strictly below the threshold accumulates exactly
those timestamps, in order, with no lockout. -/
theorem registerFailures_below_threshold (cfg : ThrottleConfig) (ip host : String)
    (a b : Int) (hab : b - a ≤ cfg.windowMs) :
    ∀ (ts : List Int) (st : ThrottleState) (acc : List Int),
      ((st (throttleKey ip host)).getD ⟨[], none⟩) = ⟨acc, none⟩ →
      acc.length + ts.length < cfg.maxFailures →
      (∀ t ∈ acc, a ≤ t ∧ t ≤ b) →
      (∀ t ∈ ts, a ≤ t ∧ t ≤ b) →
      (((registerFailures cfg st ip host ts) (throttleKey ip host)).getD ⟨[], none⟩)
        = ⟨acc ++ ts, none⟩
  | [], st, acc, hst, _, _, _ => by
    simpa [registerFailures] using hst
  | t :: ts, st, acc, hst, hlen, hacc, hts => by
    have hta : a ≤ t := (hts t (List.mem_cons_self t ts)).1
    have htb : t ≤ b := (hts t (List.mem_cons_self t ts)).2
    have hfil : ((acc ++ [t]).filter (fun x => t - x ≤ cfg.windowMs)) = acc ++ [t] := by
      rw [List.filter_eq_self]
      intro x hx
      rcases List.mem_append.mp hx with hx | hx
      · have := hacc x hx
        simp only [decide_eq_true_eq]
        omega
      · have : x = t := by simpa using hx
        subst this
        simp only [decide_eq_true_eq]
        omega
    have hlt : ¬ cfg.maxFailures ≤ (acc ++ [t]).length := by
      simp only [List.length_append, List.length_cons, List.length_nil]
      simp only [List.length_cons] at hlen
      omega
    have hstep : (registerFailure cfg st t ip host) (throttleKey ip host)
        = some ⟨acc ++ [t], none⟩ := by
      simp only [registerFailure]
      rw [hst]
      simp only [activeBlock, Bool.false_eq_true, if_false]
      rw [hfil, if_neg hlt]
      simp [setRec]
    have ih := registerFailures_below_threshold cfg ip host a b hab ts
      (registerFailure cfg st t ip host) (acc ++ [t])
      (by rw [hstep]; rfl)
      (by simp only [List.length_append, List.length_cons, List.length_nil]
          simp only [List.length_cons] at hlen
          omega)
      (by intro x hx
          rcases List.mem_append.mp hx with hx | hx
          · exact hacc x hx
          · have : x = t := by simpa using hx
            subst this
            exact ⟨hta, htb⟩)
      (fun x hx => hts x (List.mem_cons_of_mem t hx))
    simpa [registerFailures, List.append_assoc] using ih

/-- Claim C4: starting from an empty record, exactly `maxFailures` calls to
`registerFailure` inside one `windowMs` interval ending at `tLast` make
`isBlocked` report blocked with `retryAfterMs = lockoutMs` minus the time
elapsed since the last failure. -/
theorem lockout_after_max_failures (cfg : ThrottleConfig) (st : ThrottleState)
    (ip host : String) (ts' : List Int) (tLast tq : Int)
    (hstart : ((st (throttleKey ip host)).getD ⟨[], none⟩) = ⟨[], none⟩)
    (hn : ts'.length + 1 = cfg.maxFailures)
    (hwin : ∀ t ∈ ts', tLast - cfg.windowMs ≤ t ∧ t ≤ tLast)
    (hw0 : 0 ≤ cfg.windowMs)
    (hq0 : 0 ≤ tq) (hq1 : tLast ≤ tq) (hq2 : tq < tLast + cfg.lockoutMs) :
    (isBlocked cfg (registerFailures cfg st ip host (ts' ++ [tLast])) tq ip host).1
      = ⟨true, cfg.lockoutMs - (tq - tLast)⟩ := by
  have hrun := registerFailures_below_threshold cfg ip host
    (tLast - cfg.windowMs) tLast (by omega) ts' st []
    (by simpa using hstart)
    (by simp only [List.length_nil]; omega)
    (by intro t ht; simp at ht)
    hwin
  rw [registerFailures_append]
  set st1 := registerFailures cfg st ip host ts' with hst1
  have hfil : ((ts' ++ [tLast]).filter (fun x => tLast - x ≤ cfg.windowMs))
      = ts' ++ [tLast] := by
    rw [List.filter_eq_self]
    intro x hx
    rcases List.mem_append.mp hx with hx | hx
    · have := hwin x hx
      simp only [decide_eq_true_eq]
      omega
    · have : x = tLast := by simpa using hx
      subst this
      simp only [decide_eq_true_eq]
      omega
  have hge : cfg.maxFailures ≤ (ts' ++ [tLast]).length := by
    simp only [List.length_append, List.length_cons, List.length_nil]
    omega
  have hstep : (registerFailures cfg st1 ip host [tLast]) (throttleKey ip host)
      = some ⟨[], some (tLast + cfg.lockoutMs)⟩ := by
    simp only [registerFailures, registerFailure]
    rw [show ((st1 (throttleKey ip host)).getD ⟨[], none⟩) = ⟨ts', none⟩ by
          simpa using hrun]
    simp only [activeBlock, Bool.false_eq_true, if_false]
    rw [show (ts' ++ [tLast]).filter (fun x => decide (tLast - x ≤ cfg.windowMs))
          = ts' ++ [tLast] from hfil, if_pos hge]
    simp [setRec]
  have hbu : activeBlock (some (tLast + cfg.lockoutMs)) tq = true := by
    simp only [activeBlock]
    rw [if_pos]
    constructor
    · omega
    · omega
  simp only [isBlocked]
  rw [hstep]
  simp only [hbu, if_true, Option.getD_some, BlockResult.mk.injEq, true_and]
  omega

/-- Witness for C4: `maxFailures = 2`, failures at 100 and 200 inside a
600 ms window, queried at 300 during the 1000 ms lockout. -/
theorem lockout_after_max_failures_witness :
    ((emptyThrottle (throttleKey "1.2.3.4" "h")).getD ⟨[], none⟩
        = (⟨[], none⟩ : ThrottleRecord)) ∧
      (isBlocked ⟨2, 1000, 600⟩
          (registerFailures ⟨2, 1000, 600⟩ emptyThrottle "1.2.3.4" "h" ([100] ++ [200]))
          300 "1.2.3.4" "h").1
        = ⟨true, 1000 - (300 - 200)⟩ :=
  ⟨by decide,
   lockout_after_max_failures ⟨2, 1000, 600⟩ emptyThrottle "1.2.3.4" "h" [100] 200 300
     (by decide) (by decide) (by decide) (by decide) (by decide) (by decide) (by decide)⟩

/-! ### C5: a throttled login is answered and nothing else happens -/

/-- Claim C5: when the throttle reports the (clientIp, effectiveHost) key
blocked, the handler emits exactly one failure `loginResult` carrying the
human-readable wait time and performs no further action: no authentication,
no SSH attempt, no `registerFailure`, no `registerSuccess`, no audit record. -/
theorem loginHandler_blocked_replies_and_stops
    (cfg : ThrottleConfig) (st : ThrottleState) (env : LoginEnv) (hs : Handshake)
    (ua sid : String) (auth : AuthResult) (ssh : SshOutcome) (now : Int)
    (nowIso : String) (secret : Option String) (hmac : String → String → String)
    (msg : LoginMsg)
    (hhost : effectiveHostOf msg.host env.sshHostEnv ≠ "")
    (hblk : (isBlocked cfg st now (getClientIp hs)
        (effectiveHostOf msg.host env.sshHostEnv)).1.blocked = true) :
    (loginHandler cfg st env hs ua sid auth ssh now nowIso secret hmac msg).emits
      = [⟨false, some ("Too many failed attempts. Try again in "
          ++ formatRetryAfter ((isBlocked cfg st now (getClientIp hs)
              (effectiveHostOf msg.host env.sshHostEnv)).1.retryAfterMs) ++ ".")⟩] ∧
    (loginHandler cfg st env hs ua sid auth ssh now nowIso secret hmac msg).authAttempted
      = false ∧
    (loginHandler cfg st env hs ua sid auth ssh now nowIso secret hmac msg).sshAttempted
      = false ∧
    (loginHandler cfg st env hs ua sid auth ssh now nowIso secret hmac msg).failuresRegistered
      = 0 ∧
    (loginHandler cfg st env hs ua sid auth ssh now nowIso secret hmac msg).successRegistered
      = false ∧
    (loginHandler cfg st env hs ua sid auth ssh now nowIso secret hmac msg).audits
      = [] := by
  simp only [loginHandler]
  rw [if_pos hhost, if_pos ⟨hhost, hblk⟩]
  exact ⟨rfl, rfl, rfl, rfl, rfl, rfl⟩

/-- Witness for C5 with an active lockout in the throttle state. -/
theorem loginHandler_blocked_replies_and_stops_witness :
    effectiveHostOf (some "h") none ≠ "" ∧
      (loginHandler ⟨2, 100, 50⟩
          (setRec emptyThrottle (throttleKey "1.2.3.4" "h") ⟨[], some 5000⟩)
          ⟨none, 22⟩ ⟨"", "1.2.3.4"⟩ "ua" "s1" ⟨true, none, none⟩ SshOutcome.ok
          0 "t0" none (fun _ _ => "") ⟨"u", "p", some "h", none⟩).emits
        = [⟨false, some ("Too many failed attempts. Try again in "
            ++ formatRetryAfter ((isBlocked ⟨2, 100, 50⟩
                (setRec emptyThrottle (throttleKey "1.2.3.4" "h") ⟨[], some 5000⟩)
                0 (getClientIp ⟨"", "1.2.3.4"⟩)
                (effectiveHostOf (some "h") none)).1.retryAfterMs) ++ ".")⟩] :=
  ⟨by decide,
   (loginHandler_blocked_replies_and_stops ⟨2, 100, 50⟩
      (setRec emptyThrottle (throttleKey "1.2.3.4" "h") ⟨[], some 5000⟩)
      ⟨none, 22⟩ ⟨"", "1.2.3.4"⟩ "ua" "s1" ⟨true, none, none⟩ SshOutcome.ok
      0 "t0" none (fun _ _ => "") ⟨"u", "p", some "h", none⟩
      (by decide) (by decide)).1⟩

/-! ### C10: every `login` message is answered by exactly one `loginResult` -/

/-- Claim C10: the handler emits exactly one `loginResult` on every path —
throttle-blocked, missing credentials, constructor throw (caught as
`Authentication error`), local auth failure, missing host, SSH failure and
success all emit exactly one message. -/
theorem loginHandler_emits_exactly_one
    (cfg : ThrottleConfig) (st : ThrottleState) (env : LoginEnv) (hs : Handshake)
    (ua sid : String) (auth : AuthResult) (ssh : SshOutcome) (now : Int)
    (nowIso : String) (secret : Option String) (hmac : String → String → String)
    (msg : LoginMsg) :
    (loginHandler cfg st env hs ua sid auth ssh now nowIso secret hmac msg).emits.length
      = 1 := by
  simp only [loginHandler]
  split_ifs <;> first
    | rfl
    | (cases ssh <;> rfl)
